import Mathlib

/-!
Verification development for the multi-tier memory retention pipeline
(`src/core/memory.py`, `src/core/perception.py`, `src/core/schema.py`).

The Python payloads (`Dict[str, Any]`) are embedded as a JSON-like `Value`
type; dicts are association lists with unique keys in insertion order.
Fallible Python operations (attribute errors on `.get`, type errors on
`in` / iteration) are embedded as `Except`-valued functions; in-place
mutation of the five collections is embedded as explicit state passing
on `MemSt`.  `datetime.utcnow()` is embedded as an explicit `now`
parameter measured in whole seconds, and
`datetime.fromisoformat(ts.replace("Z", ""))` as an abstract partial
parse `parse : String → Option Int` (seconds since an arbitrary epoch);
all retention theorems are universally quantified over `parse`.
-/

namespace RelateAI

/-- JSON-like values embedding the dynamic Python payloads that flow
through the pipeline (`events`, `result` and their sub-payloads). -/
inductive Value where
  | null : Value
  | bool (b : Bool) : Value
  | int (n : Int) : Value
  | str (s : String) : Value
  | list (xs : List Value) : Value
  | dict (d : List (String × Value)) : Value

/-- Lookup in a Python dict (association list, first match). -/
def dictLookup (d : List (String × Value)) (k : String) : Option Value :=
  (d.find? fun p => p.1 == k).map fun p => p.2

/-- Python `d.get(k, dflt)` on a value statically known to be a dict. -/
def dictGetD (d : List (String × Value)) (k : String) (dflt : Value) : Value :=
  (dictLookup d k).getD dflt

/-- Python `v.get(k, dflt)` on an arbitrary value: an `AttributeError`
(modelled as `.error ()`) unless `v` is a dict. -/
def pyGet (v : Value) (k : String) (dflt : Value) : Except Unit Value :=
  match v with
  | .dict d => .ok (dictGetD d k dflt)
  | _ => .error ()

/-- Python truthiness coercion `bool(v)`. -/
def Value.truthy : Value → Bool
  | .null => false
  | .bool b => b
  | .int n => n != 0
  | .str s => s != ""
  | .list xs => !xs.isEmpty
  | .dict d => !d.isEmpty

/-- Concatenate strings with the separator used between container items. -/
def joinComma : List String → String
  | [] => ""
  | [s] => s
  | s :: rest => s ++ ", " ++ joinComma rest

/-- Python `repr` of a payload value (container syntax with quotes;
escaping inside string reprs is simplified, no proved theorem depends
on it). -/
def pyRepr : Value → String
  | .null => "None"
  | .bool b => if b then "True" else "False"
  | .int n => toString n
  | .str s => "'" ++ s ++ "'"
  | .list xs => "[" ++ joinComma (xs.attach.map fun x => pyRepr x.1) ++ "]"
  | .dict d => "\x7b" ++ joinComma (d.attach.map fun p =>
      match p with
      | ⟨(k, v), _⟩ => "'" ++ k ++ "': " ++ pyRepr v) ++ "\x7d"
decreasing_by
  · have h := List.sizeOf_lt_of_mem x.2
    simp at h ⊢
    omega
  · rename_i hmem
    have h := List.sizeOf_lt_of_mem hmem
    simp at h ⊢
    omega

/-- Python `str(v)` as used by f-string interpolation: a string is
itself, anything else is its repr. -/
def pyStr : Value → String
  | .str s => s
  | v => pyRepr v

/-- JSON escaping of one character (backslash, quote and the common
control characters, as `json.dumps` emits them). -/
def jsonEscapeChar (c : Char) : List Char :=
  if c = '\\' then ['\\', '\\']
  else if c = '"' then ['\\', '"']
  else if c = '\n' then ['\\', 'n']
  else if c = '\t' then ['\\', 't']
  else if c = '\r' then ['\\', 'r']
  else [c]

/-- JSON escaping of a string body. -/
def jsonEscape (s : String) : String :=
  String.mk (s.data.map jsonEscapeChar).flatten

/-- Python `json.dumps(v, ensure_ascii=False)` with the default
separators: the serialization used to derive the tier-3 identifier. -/
def jsonDumps : Value → String
  | .null => "null"
  | .bool b => if b then "true" else "false"
  | .int n => toString n
  | .str s => "\"" ++ jsonEscape s ++ "\""
  | .list xs => "[" ++ joinComma (xs.attach.map fun x => jsonDumps x.1) ++ "]"
  | .dict d => "\x7b" ++ joinComma (d.attach.map fun p =>
      match p with
      | ⟨(k, v), _⟩ => "\"" ++ jsonEscape k ++ "\": " ++ jsonDumps v) ++ "\x7d"
decreasing_by
  · have h := List.sizeOf_lt_of_mem x.2
    simp at h ⊢
    omega
  · rename_i hmem
    have h := List.sizeOf_lt_of_mem hmem
    simp at h ⊢
    omega

/-- Whether the character list `needle` is a prefix of `hay`. -/
def strStarts : List Char → List Char → Bool
  | [], _ => true
  | _ :: _, [] => false
  | c :: cs, d :: ds => c == d && strStarts cs ds

/-- Whether the character list `needle` occurs inside `hay`
(substring containment, as Python `needle in haystack` on strings). -/
def strHasSub (needle : List Char) : List Char → Bool
  | [] => strStarts needle []
  | d :: ds => strStarts needle (d :: ds) || strHasSub needle ds

/-- Python `needle in hay` for a string needle: list membership by
equality, substring test on strings, key membership on dicts, and a
`TypeError` (modelled as `.error ()`) on non-container values. -/
def pyInStr (needle : String) (hay : Value) : Except Unit Bool :=
  match hay with
  | .list xs => .ok (xs.any fun v =>
      match v with
      | .str s => s == needle
      | _ => false)
  | .str s => .ok (strHasSub needle.data s.data)
  | .dict d => .ok (d.any fun p => p.1 == needle)
  | _ => .error ()

/-- Python iteration `for x in v`: list elements, characters of a
string, keys of a dict; a `TypeError` otherwise. -/
def pyToList : Value → Except Unit (List Value)
  | .list xs => .ok xs
  | .str s => .ok (s.data.map fun c => .str (String.mk [c]))
  | .dict d => .ok (d.map fun p => .str p.1)
  | _ => .error ()

/-! ### SHA-256 (FIPS 180-4), embedding `hashlib.sha256(...).hexdigest()` -/

/-- UTF-8 encoding of one unicode scalar value, as bytes (each `< 256`). -/
def utf8Bytes (c : Char) : List Nat :=
  let n := c.toNat
  if n < 128 then [n]
  else if n < 2048 then [192 + n / 64, 128 + n % 64]
  else if n < 65536 then [224 + n / 4096, 128 + n / 64 % 64, 128 + n % 64]
  else [240 + n / 262144, 128 + n / 4096 % 64, 128 + n / 64 % 64, 128 + n % 64]

/-- Python `s.encode("utf-8")` as a byte list. -/
def utf8Encode (s : String) : List Nat :=
  (s.data.map utf8Bytes).flatten

/-- Truncation to a 32-bit machine word. -/
def w32 (n : Nat) : Nat := n % 4294967296

/-- Right rotation of a 32-bit word by `k`. -/
def rotr (k n : Nat) : Nat := w32 (n / 2 ^ k + n * 2 ^ (32 - k))

/-- Logical right shift by `k`. -/
def shr (k n : Nat) : Nat := n / 2 ^ k

/-- SHA-256 small sigma 0. -/
def sig0 (x : Nat) : Nat := rotr 7 x ^^^ rotr 18 x ^^^ shr 3 x

/-- SHA-256 small sigma 1. -/
def sig1 (x : Nat) : Nat := rotr 17 x ^^^ rotr 19 x ^^^ shr 10 x

/-- SHA-256 big sigma 0. -/
def bsig0 (x : Nat) : Nat := rotr 2 x ^^^ rotr 13 x ^^^ rotr 22 x

/-- SHA-256 big sigma 1. -/
def bsig1 (x : Nat) : Nat := rotr 6 x ^^^ rotr 11 x ^^^ rotr 25 x

/-- SHA-256 choice function. -/
def chF (x y z : Nat) : Nat := (x &&& y) ^^^ ((x ^^^ 4294967295) &&& z)

/-- SHA-256 majority function. -/
def majF (x y z : Nat) : Nat := (x &&& y) ^^^ (x &&& z) ^^^ (y &&& z)

/-- The 64 SHA-256 round constants. -/
def shaK : List Nat :=
  [1116352408, 1899447441, 3049323471, 3921009573,
   961987163, 1508970993, 2453635748, 2870763221,
   3624381080, 310598401, 607225278, 1426881987,
   1925078388, 2162078206, 2614888103, 3248222580,
   3835390401, 4022224774, 264347078, 604807628,
   770255983, 1249150122, 1555081692, 1996064986,
   2554220882, 2821834349, 2952996808, 3210313671,
   3336571891, 3584528711, 113926993, 338241895,
   666307205, 773529912, 1294757372, 1396182291,
   1695183700, 1986661051, 2177026350, 2456956037,
   2730485921, 2820302411, 3259730800, 3345764771,
   3516065817, 3600352804, 4094571909, 275423344,
   430227734, 506948616, 659060556, 883997877,
   958139571, 1322822218, 1537002063, 1747873779,
   1955562222, 2024104815, 2227730452, 2361852424,
   2428436474, 2756734187, 3204031479, 3329325298]

/-- The eight 32-bit working registers of the compression function. -/
structure Regs where
  a : Nat
  b : Nat
  c : Nat
  d : Nat
  e : Nat
  f : Nat
  g : Nat
  h : Nat

/-- The SHA-256 initial hash value. -/
def shaH0 : Regs :=
  ⟨1779033703, 3144134277, 1013904242, 2773480762,
   1359893119, 2600822924, 528734635, 1541459225⟩

/-- Merkle-Damgård padding: `0x80`, zeros, then the 64-bit big-endian
bit length, to a multiple of 64 bytes. -/
def shaPad (msg : List Nat) : List Nat :=
  let len := msg.length
  let zeros := (64 - (len + 9) % 64) % 64
  msg ++ [128] ++ List.replicate zeros 0 ++
    ((List.range 8).map fun i => len * 8 / 2 ^ (8 * (7 - i)) % 256)

/-- Split a (padded) byte list into 64-byte blocks. -/
def toBlocks (l : List Nat) : List (List Nat) :=
  if h : l = [] then [] else l.take 64 :: toBlocks (l.drop 64)
termination_by l.length
decreasing_by
  have hp : 0 < l.length := List.length_pos.mpr h
  simp
  omega

/-- The sixteen 32-bit big-endian message words of one block. -/
def blockWords (b : List Nat) : List Nat :=
  (List.range 16).map fun i =>
    b.getD (4 * i) 0 * 16777216 + b.getD (4 * i + 1) 0 * 65536 +
      b.getD (4 * i + 2) 0 * 256 + b.getD (4 * i + 3) 0

/-- Extend the message schedule by `k` further words. -/
def extendW (w : List Nat) : Nat → List Nat
  | 0 => w
  | k + 1 =>
    let w2 := extendW w k
    let n := w2.length
    w2 ++ [w32 (sig1 (w2.getD (n - 2) 0) + w2.getD (n - 7) 0 +
      sig0 (w2.getD (n - 15) 0) + w2.getD (n - 16) 0)]

/-- The 64-word message schedule of one block. -/
def schedule (b : List Nat) : List Nat := extendW (blockWords b) 48

/-- One compression round. -/
def roundStep (ks ws : Nat) (r : Regs) : Regs :=
  let t1 := w32 (r.h + bsig1 r.e + chF r.e r.f r.g + ks + ws)
  let t2 := w32 (bsig0 r.a + majF r.a r.b r.c)
  ⟨w32 (t1 + t2), r.a, r.b, r.c, w32 (r.d + t1), r.e, r.f, r.g⟩

/-- Compress one 64-byte block into the running hash state. -/
def compressBlock (r0 : Regs) (b : List Nat) : Regs :=
  let ws := schedule b
  let r := (List.range 64).foldl (fun r i => roundStep (shaK.getD i 0) (ws.getD i 0) r) r0
  ⟨w32 (r0.a + r.a), w32 (r0.b + r.b), w32 (r0.c + r.c), w32 (r0.d + r.d),
   w32 (r0.e + r.e), w32 (r0.f + r.f), w32 (r0.g + r.g), w32 (r0.h + r.h)⟩

/-- The SHA-256 digest of a byte list, packed as one natural number
(the 32 digest bytes in big-endian order, so `< 2 ^ 256`). -/
def sha256Nat (msg : List Nat) : Nat :=
  let r := (toBlocks (shaPad msg)).foldl compressBlock shaH0
  ((((((r.a * 4294967296 + r.b) * 4294967296 + r.c) * 4294967296 + r.d) * 4294967296 + r.e) *
        4294967296 + r.f) * 4294967296 + r.g) * 4294967296 + r.h

/-- Lowercase hexadecimal digit for `n < 16`. -/
def hexChar (n : Nat) : Char := if n < 10 then Char.ofNat (48 + n) else Char.ofNat (87 + n)

/-- `d` printed as exactly `k` lowercase hex digits, most significant first. -/
def hexStrPad (k : Nat) (d : Nat) : String :=
  String.mk ((List.range k).map fun i => hexChar (d / 16 ^ (k - 1 - i) % 16))

/-- Python `hashlib.sha256(msg).hexdigest()`: 64 lowercase hex characters. -/
def hexdigest (msg : List Nat) : String := hexStrPad 64 (sha256Nat msg)

/-- Python string slice `s[:12]` (first 12 code points). -/
def strSlice12 (s : String) : String := String.mk (s.data.take 12)

/-- `make_fake_embedding_id` from `src/core/memory.py`:
`hashlib.sha256(payload.encode("utf-8")).hexdigest()[:12]`. -/
def make_fake_embedding_id (payload : String) : String :=
  strSlice12 (hexdigest (utf8Encode payload))

/-! ### Data model (`src/core/schema.py`) -/

/-- One fact-ledger record. -/
structure LedgerEntry where
  ts_utc : String
  fact_receipt : Value
  conclusion : Value
  intervention_plan : Value
  privacy_note : String

/-- One tension-history record (the spec's TensionPoint). -/
structure VibePoint where
  ts_utc : String
  level : String
  notify : Bool

/-- One tier-1 raw-events record. -/
structure Tier1Record where
  ts_utc : String
  events : List (String × Value)

/-- One tier-2 summary record.  The `conclusion_type` field receives
`result["conclusion"].get("type", "unknown")` unchecked, so it is a
dynamic value, not necessarily a string. -/
structure Tier2Summary where
  ts_utc : String
  summary : String
  conclusion_type : Value

/-- One tier-3 embedding record; `theme` copies `conclusion_type`. -/
structure Tier3Embedding where
  ts_utc : String
  embedding_id : String
  theme : Value

/-- The five session collections, mutated in place by the recorder and
the pruner; embedded as an explicit state record. -/
structure MemSt where
  ledger_48h : List LedgerEntry
  vibe_history : List VibePoint
  tier1_events_48h : List Tier1Record
  tier2_summaries_30d : List Tier2Summary
  tier3_embeddings : List Tier3Embedding

/-- The empty session state. -/
def emptySt : MemSt := ⟨[], [], [], [], []⟩

/-! ### Tension extraction (`src/core/perception.py`) -/

/-- Python `v == "lit"` for a string literal: equality across types is
`False` except between equal strings. -/
def valIsStr (v : Value) (lit : String) : Bool :=
  match v with
  | .str t => t == lit
  | _ => false

/-- The notify-hint expression
`level in ("rising", "high") or ("rapid_escalation" in signals)`,
with Python's short-circuit `or` (the membership test on `signals` is
reached only when the level test is false). -/
def hintOf (level signals : Value) : Except Unit Bool :=
  if valIsStr level "rising" || valIsStr level "high" then .ok true
  else pyInStr "rapid_escalation" signals

/-- The loop body of `extract_tension_level`: scan for the first event
whose `"type"` equals `"TensionSignalEvent"` and read its fields. -/
def scanEvents : List Value → Except Unit (Value × Bool)
  | [] => .ok (.str "unknown", false)
  | ev :: rest => do
    let t ← pyGet ev "type" .null
    if valIsStr t "TensionSignalEvent" then do
      let level ← pyGet ev "level" (.str "unknown")
      let signals ← pyGet ev "signals" (.list [])
      let hint ← hintOf level signals
      .ok (level, hint)
    else scanEvents rest

/-- `extract_tension_level` from `src/core/perception.py`.  The level
is returned as the dynamic value found in the event (the function's
`str` annotation is not enforced by Python). -/
def extract_tension_level (events_dict : List (String × Value)) :
    Except Unit (Value × Bool) := do
  let evs ← pyToList (dictGetD events_dict "events" (.list []))
  scanEvents evs

/-! ### Recorder and pruner (`src/core/memory.py`) -/

/-- The fixed ledger privacy note. -/
def privacyNote : String :=
  "Stored derived evidence only (quotes + constitution excerpts). No raw audio/video."

/-- The fixed export privacy statement. -/
def privacyStatement : String :=
  "This demo stores derived events and receipts. It does not store raw audio/video or face identity."

/-- Whether one record survives age filtering: parse the timestamp and
compare against the cutoff; an unparsable timestamp is kept (the
`except` branch of the loop — fail open). -/
def keepRecord (parse : String → Option Int) (cutoff : Int) (ts : String) : Bool :=
  match parse ts with
  | some t => cutoff ≤ t
  | none => true

/-- The accumulation loop shared by `prune_by_hours` and
`prune_by_days`: walk the items in order, appending the survivors. -/
def pruneKept (parse : String → Option Int) (cutoff : Int) (tsOf : α → String) :
    List α → List α
  | [] => []
  | it :: rest =>
    if keepRecord parse cutoff (tsOf it) then it :: pruneKept parse cutoff tsOf rest
    else pruneKept parse cutoff tsOf rest

/-- `prune_by_hours`: cutoff `now - hours`, then `kept[:keep_max]`.
`tsOf` embeds `getattr(it, ts_attr, "")` (the timestamp field is always
present on the record types used). -/
def prune_by_hours (parse : String → Option Int) (now : Int) (items : List α)
    (tsOf : α → String) (hours : Int) (keep_max : Nat) : List α :=
  (pruneKept parse (now - hours * 3600) tsOf items).take keep_max

/-- `prune_by_days`: cutoff `now - days`, then `kept[:keep_max]`. -/
def prune_by_days (parse : String → Option Int) (now : Int) (items : List α)
    (tsOf : α → String) (days : Int) (keep_max : Nat) : List α :=
  (pruneKept parse (now - days * 86400) tsOf items).take keep_max

/-- The LedgerEntry built at the top of `add_run_artifacts`. -/
def mkLedgerEntry (ts : String) (result : List (String × Value)) : LedgerEntry :=
  { ts_utc := ts
    fact_receipt := dictGetD result "fact_receipt" (.dict [])
    conclusion := dictGetD result "conclusion" (.dict [])
    intervention_plan := dictGetD result "intervention_plan" (.dict [])
    privacy_note := privacyNote }

/-- The tier-2 summary f-string
`f"{type}: {summary} | notify={should_notify} via {channel}"`. -/
def summaryText (ctype osum snv chan : Value) : String :=
  pyStr ctype ++ ": " ++ pyStr osum ++ " | notify=" ++ pyStr snv ++ " via " ++ pyStr chan

/-- `asdict` of a Tier2Summary, the payload serialized for the tier-3 id. -/
def tier2Asdict (s : Tier2Summary) : Value :=
  .dict [("ts_utc", .str s.ts_utc), ("summary", .str s.summary),
         ("conclusion_type", s.conclusion_type)]

/-- `add_run_artifacts` from `src/core/memory.py`.  A raised
`AttributeError` (a present but non-dict sub-payload hit by `.get`) is
embedded as `.error st` carrying the collections as already mutated at
the raise point; `.ok st` is a completed run. -/
def add_run_artifacts (ts : String) (events : List (String × Value))
    (result : List (String × Value)) (tension_level : String) (st : MemSt) :
    Except MemSt MemSt := do
  let st := { st with ledger_48h := mkLedgerEntry ts result :: st.ledger_48h }
  let sn ← (pyGet (dictGetD result "intervention_plan" (.dict [])) "should_notify"
    (.bool false)).mapError fun _ => st
  let notify := sn.truthy
  let st := { st with vibe_history := st.vibe_history ++ [(⟨ts, tension_level, notify⟩ : VibePoint)] }
  let st := { st with tier1_events_48h := (⟨ts, events⟩ : Tier1Record) :: st.tier1_events_48h }
  let con := dictGetD result "conclusion" (.dict [])
  let plan := dictGetD result "intervention_plan" (.dict [])
  let ctype ← (pyGet con "type" (.str "unknown")).mapError fun _ => st
  let osum ← (pyGet con "one_sentence_summary" (.str "")).mapError fun _ => st
  let snv ← (pyGet plan "should_notify" (.bool false)).mapError fun _ => st
  let chan ← (pyGet plan "channel" (.str "none")).mapError fun _ => st
  let ctype2 ← (pyGet con "type" (.str "unknown")).mapError fun _ => st
  let t2 : Tier2Summary := ⟨ts, summaryText ctype osum snv chan, ctype2⟩
  let st := { st with tier2_summaries_30d := t2 :: st.tier2_summaries_30d }
  let payload := jsonDumps (tier2Asdict t2)
  let st := { st with tier3_embeddings :=
    (⟨ts, make_fake_embedding_id payload, t2.conclusion_type⟩ : Tier3Embedding) ::
      st.tier3_embeddings }
  .ok st

/-- One run input, as handed to `add_run_artifacts` by the caller. -/
structure RunInput where
  ts : String
  events : List (String × Value)
  result : List (String × Value)
  tension_level : String

/-- The state after one `add_run_artifacts` call, whether or not it
raised (Python's in-place mutations persist across a raise). -/
def runStep (u : RunInput) (st : MemSt) : MemSt :=
  match add_run_artifacts u.ts u.events u.result u.tension_level st with
  | .ok s => s
  | .error s => s

/-- N successive runs. -/
def record_runs (us : List RunInput) (st : MemSt) : MemSt :=
  us.foldl (fun s u => runStep u s) st

/-- `apply_retention_policy` from `src/core/memory.py`: 48 h / cap 200
for ledger and tier1, 30 d / cap 2000 for the vibe history, 30 d /
cap 500 for tier2, and only the 2000 cap (`del tier3[2000:]`) for tier3. -/
def apply_retention_policy (parse : String → Option Int) (now : Int) (st : MemSt) : MemSt :=
  { ledger_48h := prune_by_hours parse now st.ledger_48h LedgerEntry.ts_utc 48 200
    tier1_events_48h := prune_by_hours parse now st.tier1_events_48h Tier1Record.ts_utc 48 200
    vibe_history := prune_by_days parse now st.vibe_history VibePoint.ts_utc 30 2000
    tier2_summaries_30d := prune_by_days parse now st.tier2_summaries_30d Tier2Summary.ts_utc 30 500
    tier3_embeddings :=
      if st.tier3_embeddings.length > 2000 then st.tier3_embeddings.take 2000
      else st.tier3_embeddings }

/-! ### Export (`src/core/memory.py`) -/

/-- `asdict` of a LedgerEntry. -/
def ledgerAsdict (e : LedgerEntry) : Value :=
  .dict [("ts_utc", .str e.ts_utc), ("fact_receipt", e.fact_receipt),
         ("conclusion", e.conclusion), ("intervention_plan", e.intervention_plan),
         ("privacy_note", .str e.privacy_note)]

/-- `asdict` of a VibePoint. -/
def vibeAsdict (v : VibePoint) : Value :=
  .dict [("ts_utc", .str v.ts_utc), ("level", .str v.level), ("notify", .bool v.notify)]

/-- `asdict` of a Tier3Embedding. -/
def tier3Asdict (e : Tier3Embedding) : Value :=
  .dict [("ts_utc", .str e.ts_utc), ("embedding_id", .str e.embedding_id),
         ("theme", e.theme)]

/-- `export_payload` from `src/core/memory.py`.  Its signature takes
only four of the five collections: tier-1 is not an input at all.  A
pure read — the embedding returns a document and touches no state. -/
def export_payload (ledger_48h : List LedgerEntry) (vibe_history : List VibePoint)
    (tier2_summaries_30d : List Tier2Summary) (tier3_embeddings : List Tier3Embedding) : Value :=
  .dict [("ledger_48h", .list (ledger_48h.map ledgerAsdict)),
         ("vibe_history_30d", .list (vibe_history.map vibeAsdict)),
         ("tier2_summaries_30d", .list (tier2_summaries_30d.map tier2Asdict)),
         ("tier3_embeddings", .list (tier3_embeddings.map tier3Asdict)),
         ("privacy_statement", .str privacyStatement)]

/-- The export document read off a full session state (the caller
passes the four exported collections; tier-1 cannot influence it). -/
def export_of_state (st : MemSt) : Value :=
  export_payload st.ledger_48h st.vibe_history st.tier2_summaries_30d st.tier3_embeddings

/-- A concrete signed-decimal timestamp parse (seconds as a decimal
integer string), used to instantiate the abstract `parse` in concrete
scenario conjuncts and witnesses. -/
def decTs (s : String) : Option Int :=
  let digitsVal : List Char → Option Nat := fun l =>
    if l ≠ [] ∧ l.all (fun c => c.isDigit) then
      some (l.foldl (fun a c => a * 10 + (c.toNat - 48)) 0)
    else none
  match s.data with
  | '-' :: rest => (digitsVal rest).map fun n => -(n : Int)
  | l => (digitsVal l).map fun n => (n : Int)

/-! ### Spec-side helper functions and basic lemmas -/

/-- Whether a value is a dict (has a usable `.get`). -/
def isDictVal : Value → Bool
  | .dict _ => true
  | _ => false

/-- Whether `result[k]`, if present, is dict-shaped (so the recorder's
`.get` chain on it cannot raise). -/
def subShapeOk (result : List (String × Value)) (k : String) : Bool :=
  isDictVal (dictGetD result k (.dict []))

/-- Whether both sub-payloads read with `.get` by the recorder are
absent or dict-shaped. -/
def resultShapeOk (result : List (String × Value)) : Bool :=
  subShapeOk result "conclusion" && subShapeOk result "intervention_plan"

/-- Total two-level dict access `result.get(k1, {}).get(k2, dflt)`,
meaningful when `subShapeOk result k1` holds. -/
def dictGetD2 (result : List (String × Value)) (k1 k2 : String) (dflt : Value) : Value :=
  match dictGetD result k1 (.dict []) with
  | .dict d => dictGetD d k2 dflt
  | _ => dflt

/-- The notify flag the recorder stores, a function of the mediation
result only: `bool(result.get("intervention_plan", {}).get("should_notify", False))`. -/
def notifyOf (result : List (String × Value)) : Bool :=
  (dictGetD2 result "intervention_plan" "should_notify" (.bool false)).truthy

/-- The tension-history point appended by a completed (or late-raising)
run. -/
def mkVibePoint (ts : String) (result : List (String × Value)) (tl : String) : VibePoint :=
  ⟨ts, tl, notifyOf result⟩

/-- The tier-2 record built by a completed run. -/
def mkTier2 (ts : String) (result : List (String × Value)) : Tier2Summary :=
  ⟨ts,
   summaryText (dictGetD2 result "conclusion" "type" (.str "unknown"))
     (dictGetD2 result "conclusion" "one_sentence_summary" (.str ""))
     (dictGetD2 result "intervention_plan" "should_notify" (.bool false))
     (dictGetD2 result "intervention_plan" "channel" (.str "none")),
   dictGetD2 result "conclusion" "type" (.str "unknown")⟩

/-- The tier-3 record built by a completed run. -/
def mkTier3 (ts : String) (result : List (String × Value)) : Tier3Embedding :=
  ⟨ts, make_fake_embedding_id (jsonDumps (tier2Asdict (mkTier2 ts result))),
   (mkTier2 ts result).conclusion_type⟩

/-- `Except` success as a boolean (did the call return without raising). -/
def exceptOk (e : Except MemSt MemSt) : Bool :=
  match e with
  | .ok _ => true
  | .error _ => false

/-- `.get` on a dict value never raises. -/
theorem pyGet_dict (d : List (String × Value)) (k : String) (dflt : Value) :
    pyGet (.dict d) k dflt = .ok (dictGetD d k dflt) := rfl

/-- The pruning loop is exactly an order-preserving filter by the keep
predicate. -/
theorem pruneKept_eq_filter (parse : String → Option Int) (cutoff : Int) (tsOf : α → String)
    (l : List α) :
    pruneKept parse cutoff tsOf l = l.filter fun it => keepRecord parse cutoff (tsOf it) := by
  induction l with
  | nil => rfl
  | cons x xs ih => simp only [pruneKept, List.filter_cons, ih]

/-- With both sub-payloads absent or dict-shaped, `add_run_artifacts`
completes and the five collections each gain exactly their one record. -/
theorem add_run_ok (ts : String) (events : List (String × Value))
    (result : List (String × Value)) (tl : String) (st : MemSt)
    (h : resultShapeOk result = true) :
    add_run_artifacts ts events result tl st = .ok
      { ledger_48h := mkLedgerEntry ts result :: st.ledger_48h
        vibe_history := st.vibe_history ++ [mkVibePoint ts result tl]
        tier1_events_48h := (⟨ts, events⟩ : Tier1Record) :: st.tier1_events_48h
        tier2_summaries_30d := mkTier2 ts result :: st.tier2_summaries_30d
        tier3_embeddings := mkTier3 ts result :: st.tier3_embeddings } := by
  simp only [resultShapeOk, Bool.and_eq_true, subShapeOk] at h
  obtain ⟨hc, hp⟩ := h
  rcases hcv : dictGetD result "conclusion" (.dict []) with _ | _ | _ | _ | _ | dc <;>
    rw [hcv] at hc <;> simp [isDictVal] at hc
  rcases hpv : dictGetD result "intervention_plan" (.dict []) with _ | _ | _ | _ | _ | dp <;>
    rw [hpv] at hp <;> simp [isDictVal] at hp
  simp [add_run_artifacts, hcv, hpv, pyGet_dict, Except.mapError, mkVibePoint, notifyOf,
    mkTier2, mkTier3, dictGetD2, mkLedgerEntry, bind, Except.bind]

/-- With a present non-dict `intervention_plan`, the recorder raises at
the notify lookup: only the ledger has been mutated. -/
theorem add_run_err_plan (ts : String) (events : List (String × Value))
    (result : List (String × Value)) (tl : String) (st : MemSt)
    (h : subShapeOk result "intervention_plan" = false) :
    add_run_artifacts ts events result tl st = .error
      { st with ledger_48h := mkLedgerEntry ts result :: st.ledger_48h } := by
  simp only [subShapeOk] at h
  rcases hpv : dictGetD result "intervention_plan" (.dict []) with _ | _ | _ | _ | _ | dp <;>
    rw [hpv] at h <;> simp [isDictVal] at h <;>
    simp [add_run_artifacts, hpv, pyGet, Except.mapError, mkLedgerEntry, bind, Except.bind]

/-- With a dict-shaped (or absent) `intervention_plan` but a present
non-dict `conclusion`, the recorder raises while building the summary:
ledger, tension history and tier-1 have been mutated, tier-2 and
tier-3 have not. -/
theorem add_run_err_con (ts : String) (events : List (String × Value))
    (result : List (String × Value)) (tl : String) (st : MemSt)
    (hp : subShapeOk result "intervention_plan" = true)
    (hc : subShapeOk result "conclusion" = false) :
    add_run_artifacts ts events result tl st = .error
      { st with
        ledger_48h := mkLedgerEntry ts result :: st.ledger_48h
        vibe_history := st.vibe_history ++ [mkVibePoint ts result tl]
        tier1_events_48h := (⟨ts, events⟩ : Tier1Record) :: st.tier1_events_48h } := by
  simp only [subShapeOk] at hp hc
  rcases hpv : dictGetD result "intervention_plan" (.dict []) with _ | _ | _ | _ | _ | dp <;>
    rw [hpv] at hp <;> simp [isDictVal] at hp
  rcases hcv : dictGetD result "conclusion" (.dict []) with _ | _ | _ | _ | _ | dc <;>
    rw [hcv] at hc <;> simp [isDictVal] at hc <;>
    simp [add_run_artifacts, hpv, hcv, pyGet, Except.mapError, mkVibePoint, notifyOf,
      dictGetD2, mkLedgerEntry, bind, Except.bind]



theorem runStep_collections (u : RunInput) (st : MemSt) :
    ((runStep u st).ledger_48h = mkLedgerEntry u.ts u.result :: st.ledger_48h) ∧
    ((runStep u st).vibe_history = st.vibe_history ∨
      (runStep u st).vibe_history =
        st.vibe_history ++ [mkVibePoint u.ts u.result u.tension_level]) ∧
    ((runStep u st).tier1_events_48h = st.tier1_events_48h ∨
      (runStep u st).tier1_events_48h =
        (⟨u.ts, u.events⟩ : Tier1Record) :: st.tier1_events_48h) ∧
    ((runStep u st).tier2_summaries_30d = st.tier2_summaries_30d ∨
      (runStep u st).tier2_summaries_30d = mkTier2 u.ts u.result :: st.tier2_summaries_30d) ∧
    ((runStep u st).tier3_embeddings = st.tier3_embeddings ∨
      (runStep u st).tier3_embeddings = mkTier3 u.ts u.result :: st.tier3_embeddings) := by
  by_cases hp : subShapeOk u.result "intervention_plan" = true
  · by_cases hc : subShapeOk u.result "conclusion" = true
    · rw [runStep, add_run_ok u.ts u.events u.result u.tension_level st
        (by simp [resultShapeOk, hp, hc])]
      simp
    · rw [runStep, add_run_err_con u.ts u.events u.result u.tension_level st hp
        (by simpa using hc)]
      simp
  · rw [runStep, add_run_err_plan u.ts u.events u.result u.tension_level st (by simpa using hp)]
    simp

def tsBelow (m : String → Int) (st : MemSt) (t : Int) : Prop :=
  (∀ r ∈ st.ledger_48h, m r.ts_utc < t) ∧ (∀ r ∈ st.vibe_history, m r.ts_utc < t) ∧
  (∀ r ∈ st.tier1_events_48h, m r.ts_utc < t) ∧ (∀ r ∈ st.tier2_summaries_30d, m r.ts_utc < t) ∧
  (∀ r ∈ st.tier3_embeddings, m r.ts_utc < t)

def wellOrdered (m : String → Int) (st : MemSt) : Prop :=
  st.ledger_48h.Pairwise (fun a b => m b.ts_utc < m a.ts_utc) ∧
  st.vibe_history.Pairwise (fun a b => m a.ts_utc < m b.ts_utc) ∧
  st.tier1_events_48h.Pairwise (fun a b => m b.ts_utc < m a.ts_utc) ∧
  st.tier2_summaries_30d.Pairwise (fun a b => m b.ts_utc < m a.ts_utc) ∧
  st.tier3_embeddings.Pairwise (fun a b => m b.ts_utc < m a.ts_utc)

theorem runStep_ordered (m : String → Int) (u : RunInput) (st : MemSt)
    (ho : wellOrdered m st) (hb : tsBelow m st (m u.ts)) :
    wellOrdered m (runStep u st) ∧ ∀ t, m u.ts < t → tsBelow m (runStep u st) t := by
  obtain ⟨h1, h2, h3, h4, h5⟩ := runStep_collections u st
  obtain ⟨o1, o2, o3, o4, o5⟩ := ho
  obtain ⟨b1, b2, b3, b4, b5⟩ := hb
  constructor
  · refine ⟨?_, ?_, ?_, ?_, ?_⟩
    · rw [h1]
      exact List.pairwise_cons.mpr ⟨fun b hb => b1 b hb, o1⟩
    · rcases h2 with h | h <;> rw [h]
      · exact o2
      · exact List.pairwise_append.mpr ⟨o2, by simp, by simpa [mkVibePoint] using b2⟩
    · rcases h3 with h | h <;> rw [h]
      · exact o3
      · exact List.pairwise_cons.mpr ⟨fun b hb => b3 b hb, o3⟩
    · rcases h4 with h | h <;> rw [h]
      · exact o4
      · exact List.pairwise_cons.mpr ⟨fun b hb => b4 b hb, o4⟩
    · rcases h5 with h | h <;> rw [h]
      · exact o5
      · exact List.pairwise_cons.mpr ⟨fun b hb => b5 b hb, o5⟩
  · intro t ht
    refine ⟨?_, ?_, ?_, ?_, ?_⟩
    · rw [h1]
      intro r hr
      rcases List.mem_cons.mp hr with rfl | hr
      · simpa [mkLedgerEntry] using ht
      · exact lt_trans (b1 _ hr) ht
    · rcases h2 with h | h <;> rw [h] <;> intro r hr
      · exact lt_trans (b2 _ hr) ht
      · rcases List.mem_append.mp hr with hr | hr
        · exact lt_trans (b2 _ hr) ht
        · simp at hr
          simpa [hr, mkVibePoint] using ht
    · rcases h3 with h | h <;> rw [h] <;> intro r hr
      · exact lt_trans (b3 _ hr) ht
      · rcases List.mem_cons.mp hr with rfl | hr
        · simpa using ht
        · exact lt_trans (b3 _ hr) ht
    · rcases h4 with h | h <;> rw [h] <;> intro r hr
      · exact lt_trans (b4 _ hr) ht
      · rcases List.mem_cons.mp hr with rfl | hr
        · simpa [mkTier2] using ht
        · exact lt_trans (b4 _ hr) ht
    · rcases h5 with h | h <;> rw [h] <;> intro r hr
      · exact lt_trans (b5 _ hr) ht
      · rcases List.mem_cons.mp hr with rfl | hr
        · simpa [mkTier3] using ht
        · exact lt_trans (b5 _ hr) ht

theorem record_runs_ordered_aux (m : String → Int) :
    ∀ (us : List RunInput) (st : MemSt), wellOrdered m st →
      (∀ u ∈ us, tsBelow m st (m u.ts)) →
      (us.map fun u => m u.ts).Pairwise (· < ·) →
      wellOrdered m (record_runs us st) := by
  intro us
  induction us with
  | nil => intro st ho _ _; exact ho
  | cons u rest ih =>
    intro st ho hb hchain
    simp only [List.map_cons, List.pairwise_cons] at hchain
    obtain ⟨hfirst, hrest⟩ := hchain
    have hstep := runStep_ordered m u st ho (hb u (by simp))
    refine ih (runStep u st) hstep.1 ?_ hrest
    intro v hv
    refine hstep.2 (m v.ts) ?_
    have := hfirst (m v.ts) (List.mem_map.mpr ⟨v, hv, rfl⟩)
    exact this



/-- A ledger entry carrying only a timestamp, for concrete scenarios. -/
def mkLedgerTs (ts : String) : LedgerEntry := ⟨ts, .dict [], .dict [], .dict [], privacyNote⟩

/-- 250 ledger entries with decimal timestamps 0..249, newest-first by
convention, all within any window ending at a nonnegative cutoff. -/
def ledger250 : List LedgerEntry := (List.range 250).map fun i => mkLedgerTs (Nat.repr i)

/-- Unfolding of the pruner: each collection equals an order-preserving
filter by the keep predicate truncated to its hard cap; tier-3 is only
truncated. -/
theorem retention_fields (parse : String → Option Int) (now : Int) (st : MemSt) :
    (apply_retention_policy parse now st).ledger_48h =
      (st.ledger_48h.filter fun r => keepRecord parse (now - 48 * 3600) r.ts_utc).take 200 ∧
    (apply_retention_policy parse now st).tier1_events_48h =
      (st.tier1_events_48h.filter fun r => keepRecord parse (now - 48 * 3600) r.ts_utc).take 200 ∧
    (apply_retention_policy parse now st).vibe_history =
      (st.vibe_history.filter fun r => keepRecord parse (now - 30 * 86400) r.ts_utc).take 2000 ∧
    (apply_retention_policy parse now st).tier2_summaries_30d =
      (st.tier2_summaries_30d.filter fun r => keepRecord parse (now - 30 * 86400) r.ts_utc).take 500 ∧
    (apply_retention_policy parse now st).tier3_embeddings = st.tier3_embeddings.take 2000 := by
  refine ⟨?_, ?_, ?_, ?_, ?_⟩ <;>
    simp only [apply_retention_policy, prune_by_hours, prune_by_days, pruneKept_eq_filter]
  by_cases h : st.tier3_embeddings.length > 2000
  · simp [h]
  · simp [h, List.take_of_length_le (le_of_not_lt h)]

/-- A record whose timestamp does not parse survives the age filter. -/
theorem pruneKept_keeps_unparsable (parse : String → Option Int) (cutoff : Int)
    (tsOf : α → String) (l : List α) (e : α) (hn : parse (tsOf e) = none) (hm : e ∈ l) :
    e ∈ pruneKept parse cutoff tsOf l := by
  rw [pruneKept_eq_filter]
  exact List.mem_filter.mpr ⟨hm, by simp [keepRecord, hn]⟩

/-- Filtering then capping is stable under repetition. -/
theorem filter_take_stable (p : α → Bool) (l : List α) (k : Nat) :
    ((((l.filter p).take k).filter p).take k) = (l.filter p).take k := by
  have h1 : ((l.filter p).take k).filter p = (l.filter p).take k :=
    List.filter_eq_self.mpr fun a ha => List.of_mem_filter (List.mem_of_mem_take ha)
  rw [h1, List.take_take]
  simp

set_option maxRecDepth 8000 in
/-- C1: `apply_retention_policy` keeps a parseable-timestamped record
iff `cutoff ≤ timestamp` with the claimed windows (48 h for ledger and
tier1, 30 d for tension history and tier2, none for tier3), preserves
relative order (each pruned collection is a sublist of the original),
and truncates to the hard caps 200/200/2000/500/2000; in particular the
now−1h/now−47h/now−49h ledger keeps exactly the first two entries, and
250 in-window entries are cut to the first (most recent) 200. -/
theorem retention_policy_correct (parse : String → Option Int) (now : Int) (st : MemSt) :
    ((apply_retention_policy parse now st).ledger_48h =
        (st.ledger_48h.filter fun r => keepRecord parse (now - 48 * 3600) r.ts_utc).take 200 ∧
      (apply_retention_policy parse now st).tier1_events_48h =
        (st.tier1_events_48h.filter fun r => keepRecord parse (now - 48 * 3600) r.ts_utc).take 200 ∧
      (apply_retention_policy parse now st).vibe_history =
        (st.vibe_history.filter fun r => keepRecord parse (now - 30 * 86400) r.ts_utc).take 2000 ∧
      (apply_retention_policy parse now st).tier2_summaries_30d =
        (st.tier2_summaries_30d.filter fun r => keepRecord parse (now - 30 * 86400) r.ts_utc).take 500 ∧
      (apply_retention_policy parse now st).tier3_embeddings = st.tier3_embeddings.take 2000) ∧
    (∀ (cutoff : Int) (ts : String) (t : Int), parse ts = some t →
      (keepRecord parse cutoff ts = true ↔ cutoff ≤ t)) ∧
    ((apply_retention_policy parse now st).ledger_48h.Sublist st.ledger_48h ∧
      (apply_retention_policy parse now st).vibe_history.Sublist st.vibe_history ∧
      (apply_retention_policy parse now st).tier1_events_48h.Sublist st.tier1_events_48h ∧
      (apply_retention_policy parse now st).tier2_summaries_30d.Sublist st.tier2_summaries_30d ∧
      (apply_retention_policy parse now st).tier3_embeddings.Sublist st.tier3_embeddings) ∧
    ((apply_retention_policy decTs 0
        ⟨[mkLedgerTs "-3600", mkLedgerTs "-169200", mkLedgerTs "-176400"],
          [], [], [], []⟩).ledger_48h = [mkLedgerTs "-3600", mkLedgerTs "-169200"]) ∧
    ((apply_retention_policy decTs 0 ⟨ledger250, [], [], [], []⟩).ledger_48h =
        ledger250.take 200 ∧
      ledger250.length = 250 ∧ (ledger250.take 200).length = 200 ∧
      ∀ r ∈ ledger250, keepRecord decTs (0 - 48 * 3600) r.ts_utc = true) := by
  obtain ⟨f1, f2, f3, f4, f5⟩ := retention_fields parse now st
  refine ⟨⟨f1, f2, f3, f4, f5⟩, ?_, ⟨?_, ?_, ?_, ?_, ?_⟩, ?_, ?_⟩
  · intro cutoff ts t h
    simp [keepRecord, h]
  · rw [f1]; exact (List.take_sublist _ _).trans (List.filter_sublist _)
  · rw [f3]; exact (List.take_sublist _ _).trans (List.filter_sublist _)
  · rw [f2]; exact (List.take_sublist _ _).trans (List.filter_sublist _)
  · rw [f4]; exact (List.take_sublist _ _).trans (List.filter_sublist _)
  · rw [f5]; exact List.take_sublist _ _
  · rfl
  · have hall : ∀ r ∈ ledger250, keepRecord decTs (0 - 48 * 3600) r.ts_utc = true := by
      intro r hr
      simp only [ledger250, List.mem_map, List.mem_range] at hr
      obtain ⟨i, hi, rfl⟩ := hr
      have h250 : ((List.range 250).all fun i => decTs (Nat.repr i) == some (i : Int)) = true := by
        decide
      have hdec : decTs (Nat.repr i) = some (i : Int) := by
        have := List.all_eq_true.mp h250 i (List.mem_range.mpr hi)
        simpa using this
      simp only [mkLedgerTs, keepRecord, hdec, decide_eq_true_eq]
      omega
    refine ⟨?_, by simp [ledger250], by simp [ledger250], hall⟩
    obtain ⟨g1, _, _, _, _⟩ := retention_fields decTs 0 ⟨ledger250, [], [], [], []⟩
    rw [g1, List.filter_eq_self.mpr hall]

/-- Witness for C1 at a concrete parse, timestamp and cutoff. -/
theorem retention_policy_correct_witness :
    decTs "7" = some 7 ∧ (keepRecord decTs 5 "7" = true ↔ (5 : Int) ≤ 7) :=
  ⟨by decide, (retention_policy_correct decTs 0 emptySt).2.1 5 "7" 7 (by decide)⟩



/-- C5: a record whose timestamp field does not parse survives the age
filter of every collection (fail-open), and the final collections are
exactly the age-filtered survivors truncated to the hard caps (tier-3
is never age-filtered at all). -/
theorem prune_fail_open (parse : String → Option Int) (cutoff now : Int) (st : MemSt) :
    (∀ (l : List LedgerEntry) (e : LedgerEntry), parse e.ts_utc = none → e ∈ l →
      e ∈ pruneKept parse cutoff LedgerEntry.ts_utc l) ∧
    (∀ (l : List VibePoint) (e : VibePoint), parse e.ts_utc = none → e ∈ l →
      e ∈ pruneKept parse cutoff VibePoint.ts_utc l) ∧
    (∀ (l : List Tier1Record) (e : Tier1Record), parse e.ts_utc = none → e ∈ l →
      e ∈ pruneKept parse cutoff Tier1Record.ts_utc l) ∧
    (∀ (l : List Tier2Summary) (e : Tier2Summary), parse e.ts_utc = none → e ∈ l →
      e ∈ pruneKept parse cutoff Tier2Summary.ts_utc l) ∧
    ((apply_retention_policy parse now st).ledger_48h =
      (pruneKept parse (now - 48 * 3600) LedgerEntry.ts_utc st.ledger_48h).take 200) ∧
    ((apply_retention_policy parse now st).tier1_events_48h =
      (pruneKept parse (now - 48 * 3600) Tier1Record.ts_utc st.tier1_events_48h).take 200) ∧
    ((apply_retention_policy parse now st).vibe_history =
      (pruneKept parse (now - 30 * 86400) VibePoint.ts_utc st.vibe_history).take 2000) ∧
    ((apply_retention_policy parse now st).tier2_summaries_30d =
      (pruneKept parse (now - 30 * 86400) Tier2Summary.ts_utc st.tier2_summaries_30d).take 500) ∧
    ((apply_retention_policy parse now st).tier3_embeddings = st.tier3_embeddings.take 2000) := by
  obtain ⟨f1, f2, f3, f4, f5⟩ := retention_fields parse now st
  refine ⟨?_, ?_, ?_, ?_, ?_, ?_, ?_, ?_, f5⟩
  · intro l e hn hm; exact pruneKept_keeps_unparsable parse cutoff _ l e hn hm
  · intro l e hn hm; exact pruneKept_keeps_unparsable parse cutoff _ l e hn hm
  · intro l e hn hm; exact pruneKept_keeps_unparsable parse cutoff _ l e hn hm
  · intro l e hn hm; exact pruneKept_keeps_unparsable parse cutoff _ l e hn hm
  · rw [f1, pruneKept_eq_filter]
  · rw [f2, pruneKept_eq_filter]
  · rw [f3, pruneKept_eq_filter]
  · rw [f4, pruneKept_eq_filter]

/-- Witness for C5: an unparsable record concretely survives. -/
theorem prune_fail_open_witness :
    (fun _ : String => (none : Option Int)) (mkLedgerTs "ZZZ").ts_utc = none ∧
    mkLedgerTs "ZZZ" ∈ pruneKept (fun _ => none) 0 LedgerEntry.ts_utc [mkLedgerTs "ZZZ"] :=
  ⟨rfl, (prune_fail_open (fun _ => none) 0 0 emptySt).1 [mkLedgerTs "ZZZ"] (mkLedgerTs "ZZZ")
    rfl (by simp)⟩

/-- C8: with a fixed current time, applying the retention policy twice
equals applying it once. -/
theorem retention_idempotent (parse : String → Option Int) (now : Int) (st : MemSt) :
    apply_retention_policy parse now (apply_retention_policy parse now st) =
      apply_retention_policy parse now st := by
  simp only [apply_retention_policy, prune_by_hours, prune_by_days, pruneKept_eq_filter,
    MemSt.mk.injEq]
  refine ⟨filter_take_stable _ _ _, filter_take_stable _ _ _, filter_take_stable _ _ _,
    filter_take_stable _ _ _, ?_⟩
  by_cases h : st.tier3_embeddings.length > 2000
  · simp [h, List.length_take]
  · simp [h]



/-- C3: after N runs with strictly increasing timestamps on initially
empty collections, ledger, tier1, tier2 and tier3 are strictly
decreasing in timestamp (most recent first) while the tension history
is strictly increasing (chronological), for any timestamp measure `m`
under which the run timestamps increase. -/
theorem record_runs_ordering (m : String → Int) (us : List RunInput)
    (h : (us.map fun u => m u.ts).Pairwise (· < ·)) :
    (record_runs us emptySt).ledger_48h.Pairwise (fun a b => m b.ts_utc < m a.ts_utc) ∧
    (record_runs us emptySt).tier1_events_48h.Pairwise (fun a b => m b.ts_utc < m a.ts_utc) ∧
    (record_runs us emptySt).tier2_summaries_30d.Pairwise (fun a b => m b.ts_utc < m a.ts_utc) ∧
    (record_runs us emptySt).tier3_embeddings.Pairwise (fun a b => m b.ts_utc < m a.ts_utc) ∧
    (record_runs us emptySt).vibe_history.Pairwise (fun a b => m a.ts_utc < m b.ts_utc) := by
  have ho : wellOrdered m (record_runs us emptySt) := by
    refine record_runs_ordered_aux m us emptySt ?_ ?_ h
    · exact ⟨by simp [emptySt], by simp [emptySt], by simp [emptySt], by simp [emptySt],
        by simp [emptySt]⟩
    · intro u _
      exact ⟨by simp [emptySt], by simp [emptySt], by simp [emptySt], by simp [emptySt],
        by simp [emptySt]⟩
  exact ⟨ho.1, ho.2.2.1, ho.2.2.2.1, ho.2.2.2.2, ho.2.1⟩

/-- Witness for C3 on three concrete runs measured by string length. -/
theorem record_runs_ordering_witness :
    ((([⟨"a", [], [], "low"⟩, ⟨"bb", [], [], "rising"⟩,
        ⟨"ccc", [], [], "high"⟩] : List RunInput).map
      fun u => ((u.ts.length : Int))).Pairwise (· < ·)) ∧
    ((record_runs [⟨"a", [], [], "low"⟩, ⟨"bb", [], [], "rising"⟩, ⟨"ccc", [], [], "high"⟩]
        emptySt).ledger_48h.Pairwise
      fun a b => (b.ts_utc.length : Int) < (a.ts_utc.length : Int)) :=
  ⟨by simp; decide, (record_runs_ordering (fun s => (s.length : Int))
    [⟨"a", [], [], "low"⟩, ⟨"bb", [], [], "rising"⟩, ⟨"ccc", [], [], "high"⟩] (by simp; decide)).1⟩



/-- C2 (amended): when the `conclusion` and `intervention_plan`
sub-payloads are absent or dict-shaped, one `add_run_artifacts` call
completes and adds exactly one record to each of the five collections —
head-inserted for ledger/tier1/tier2/tier3, tail-appended for the
tension history — each stamped with the run timestamp, leaving every
pre-existing record unchanged. -/
theorem run_artifacts_one_per_tier (ts : String) (events : List (String × Value))
    (result : List (String × Value)) (tl : String) (st : MemSt)
    (h : resultShapeOk result = true) :
    ∃ st', add_run_artifacts ts events result tl st = .ok st' ∧
      (∃ e : LedgerEntry, e.ts_utc = ts ∧ st'.ledger_48h = e :: st.ledger_48h) ∧
      (∃ p : VibePoint, p.ts_utc = ts ∧ st'.vibe_history = st.vibe_history ++ [p]) ∧
      (∃ r : Tier1Record, r.ts_utc = ts ∧ st'.tier1_events_48h = r :: st.tier1_events_48h) ∧
      (∃ s2 : Tier2Summary, s2.ts_utc = ts ∧
        st'.tier2_summaries_30d = s2 :: st.tier2_summaries_30d) ∧
      (∃ e3 : Tier3Embedding, e3.ts_utc = ts ∧
        st'.tier3_embeddings = e3 :: st.tier3_embeddings) := by
  refine ⟨_, add_run_ok ts events result tl st h, ?_, ?_, ?_, ?_, ?_⟩
  · exact ⟨mkLedgerEntry ts result, rfl, rfl⟩
  · exact ⟨mkVibePoint ts result tl, rfl, rfl⟩
  · exact ⟨⟨ts, events⟩, rfl, rfl⟩
  · exact ⟨mkTier2 ts result, rfl, rfl⟩
  · exact ⟨mkTier3 ts result, rfl, rfl⟩

/-- Witness for C2 on a concrete well-shaped run input. -/
theorem run_artifacts_one_per_tier_witness :
    resultShapeOk [("conclusion", .dict [("type", .str "ambiguous")])] = true ∧
    ∃ st', add_run_artifacts "T9" [] [("conclusion", .dict [("type", .str "ambiguous")])]
        "low" emptySt = .ok st' ∧
      (∃ e : LedgerEntry, e.ts_utc = "T9" ∧ st'.ledger_48h = e :: emptySt.ledger_48h) ∧
      (∃ p : VibePoint, p.ts_utc = "T9" ∧ st'.vibe_history = emptySt.vibe_history ++ [p]) ∧
      (∃ r : Tier1Record, r.ts_utc = "T9" ∧
        st'.tier1_events_48h = r :: emptySt.tier1_events_48h) ∧
      (∃ s2 : Tier2Summary, s2.ts_utc = "T9" ∧
        st'.tier2_summaries_30d = s2 :: emptySt.tier2_summaries_30d) ∧
      (∃ e3 : Tier3Embedding, e3.ts_utc = "T9" ∧
        st'.tier3_embeddings = e3 :: emptySt.tier3_embeddings) :=
  ⟨rfl, run_artifacts_one_per_tier "T9" [] [("conclusion", .dict [("type", .str "ambiguous")])]
    "low" emptySt rfl⟩

/-- Counterexample to C2 as stated: with the malformed result
`\x7b"intervention_plan": "oops"\x7d` the call raises after inserting
only the ledger entry — the other four collections gain nothing. -/
theorem run_artifacts_partial_cex :
    exceptOk (add_run_artifacts "T1" []
        [("intervention_plan", .str "oops")] "low" emptySt) = false ∧
    (runStep ⟨"T1", [], [("intervention_plan", .str "oops")], "low"⟩ emptySt).ledger_48h.length
        = 1 ∧
    (runStep ⟨"T1", [], [("intervention_plan", .str "oops")], "low"⟩ emptySt).vibe_history = [] ∧
    (runStep ⟨"T1", [], [("intervention_plan", .str "oops")], "low"⟩
        emptySt).tier1_events_48h = [] ∧
    (runStep ⟨"T1", [], [("intervention_plan", .str "oops")], "low"⟩
        emptySt).tier2_summaries_30d = [] ∧
    (runStep ⟨"T1", [], [("intervention_plan", .str "oops")], "low"⟩
        emptySt).tier3_embeddings = [] :=
  ⟨rfl, rfl, rfl, rfl, rfl, rfl⟩

/-- Counterexample to C6 as stated: a present non-dict `conclusion`
sub-payload makes `add_run_artifacts` raise to the caller (after the
ledger, tension-history and tier-1 insertions, before tier-2). -/
theorem run_artifacts_raise_cex :
    exceptOk (add_run_artifacts "T1" [] [("conclusion", .str "oops")] "low" emptySt) = false ∧
    (runStep ⟨"T1", [], [("conclusion", .str "oops")], "low"⟩ emptySt).vibe_history.length = 1 ∧
    (runStep ⟨"T1", [], [("conclusion", .str "oops")], "low"⟩
        emptySt).tier2_summaries_30d = [] :=
  ⟨rfl, rfl, rfl⟩

/-- Lookup with default on a missing key yields the default. -/
theorem dictGetD_none {d : List (String × Value)} {k : String}
    (h : dictLookup d k = none) (dflt : Value) : dictGetD d k dflt = dflt := by
  simp [dictGetD, h]

/-- C6 (amended): when the sub-payloads are absent or dict-shaped the
call never raises, one record per tier is produced, and every missing
field is filled with its default: empty payloads for
fact_receipt/conclusion/intervention_plan, conclusion type "unknown",
notify false, and the fully-defaulted summary sentence
"unknown:  | notify=False via none" (channel "none"). -/
theorem run_artifacts_defaults (ts : String) (events : List (String × Value))
    (result : List (String × Value)) (tl : String) (st : MemSt)
    (h : resultShapeOk result = true) :
    ∃ st', add_run_artifacts ts events result tl st = .ok st' ∧
      st'.ledger_48h = mkLedgerEntry ts result :: st.ledger_48h ∧
      st'.vibe_history = st.vibe_history ++ [mkVibePoint ts result tl] ∧
      st'.tier1_events_48h = (⟨ts, events⟩ : Tier1Record) :: st.tier1_events_48h ∧
      st'.tier2_summaries_30d = mkTier2 ts result :: st.tier2_summaries_30d ∧
      st'.tier3_embeddings = mkTier3 ts result :: st.tier3_embeddings ∧
      (dictLookup result "fact_receipt" = none →
        (mkLedgerEntry ts result).fact_receipt = .dict []) ∧
      (dictLookup result "conclusion" = none →
        (mkLedgerEntry ts result).conclusion = .dict [] ∧
        (mkTier2 ts result).conclusion_type = .str "unknown" ∧
        (mkTier3 ts result).theme = .str "unknown") ∧
      (dictLookup result "intervention_plan" = none →
        (mkLedgerEntry ts result).intervention_plan = .dict [] ∧
        (mkVibePoint ts result tl).notify = false) ∧
      (dictLookup result "conclusion" = none → dictLookup result "intervention_plan" = none →
        (mkTier2 ts result).summary = "unknown:  | notify=False via none") := by
  refine ⟨_, add_run_ok ts events result tl st h, rfl, rfl, rfl, rfl, rfl, ?_, ?_, ?_, ?_⟩
  · intro hn
    simp [mkLedgerEntry, dictGetD_none hn]
  · intro hn
    have hz := dictGetD_none hn (Value.dict [])
    refine ⟨by simp [mkLedgerEntry, hz], ?_, ?_⟩ <;>
      · simp only [mkTier2, mkTier3, dictGetD2, hz]
        simp [dictGetD, dictLookup]
  · intro hn
    have hz := dictGetD_none hn (Value.dict [])
    refine ⟨by simp [mkLedgerEntry, hz], ?_⟩
    simp only [mkVibePoint, notifyOf, dictGetD2, hz]
    simp [dictGetD, dictLookup, Value.truthy]
  · intro hc hp
    have hzc := dictGetD_none hc (Value.dict [])
    have hzp := dictGetD_none hp (Value.dict [])
    simp only [mkTier2, dictGetD2, hzc, hzp]
    simp [dictGetD, dictLookup, summaryText, pyStr, pyRepr]

/-- Witness for C6 on the fully-empty mediation result. -/
theorem run_artifacts_defaults_witness :
    resultShapeOk [] = true ∧
    ∃ st', add_run_artifacts "T0" [] [] "unknown" emptySt = .ok st' ∧
      st'.ledger_48h = mkLedgerEntry "T0" [] :: emptySt.ledger_48h ∧
      st'.vibe_history = emptySt.vibe_history ++ [mkVibePoint "T0" [] "unknown"] ∧
      st'.tier1_events_48h = (⟨"T0", []⟩ : Tier1Record) :: emptySt.tier1_events_48h ∧
      st'.tier2_summaries_30d = mkTier2 "T0" [] :: emptySt.tier2_summaries_30d ∧
      st'.tier3_embeddings = mkTier3 "T0" [] :: emptySt.tier3_embeddings ∧
      (dictLookup [] "fact_receipt" = none → (mkLedgerEntry "T0" []).fact_receipt = .dict []) ∧
      (dictLookup [] "conclusion" = none →
        (mkLedgerEntry "T0" []).conclusion = .dict [] ∧
        (mkTier2 "T0" []).conclusion_type = .str "unknown" ∧
        (mkTier3 "T0" []).theme = .str "unknown") ∧
      (dictLookup [] "intervention_plan" = none →
        (mkLedgerEntry "T0" []).intervention_plan = .dict [] ∧
        (mkVibePoint "T0" [] "unknown").notify = false) ∧
      (dictLookup [] "conclusion" = none → dictLookup [] "intervention_plan" = none →
        (mkTier2 "T0" []).summary = "unknown:  | notify=False via none") :=
  ⟨rfl, run_artifacts_defaults "T0" [] [] "unknown" emptySt rfl⟩

/-- With a usable intervention plan the tension-history point is
appended whether or not the call later raises on the conclusion. -/
theorem runStep_vibe_append (ts : String) (events : List (String × Value))
    (result : List (String × Value)) (tl : String) (st : MemSt)
    (h : subShapeOk result "intervention_plan" = true) :
    (runStep ⟨ts, events, result, tl⟩ st).vibe_history =
      st.vibe_history ++ [mkVibePoint ts result tl] := by
  by_cases hc : subShapeOk result "conclusion" = true
  · rw [runStep, add_run_ok ts events result tl st (by simp [resultShapeOk, h, hc])]
  · rw [runStep, add_run_err_con ts events result tl st h (by simpa using hc)]

/-- C10: the notify flag stored in the new tension-history point is
`bool(result.get("intervention_plan", \x7b\x7d).get("should_notify", False))` —
a function of the mediation result alone (unchanged under different
events payloads and tension levels, and `extract_tension_level` is not
an input of the recorder at all); truthiness sends any non-empty
string to `true` and an absent flag to `false`. -/
theorem vibe_notify_from_plan (ts : String) (events events2 : List (String × Value))
    (result : List (String × Value)) (tl tl2 : String) (st : MemSt)
    (h : subShapeOk result "intervention_plan" = true) :
    ((runStep ⟨ts, events, result, tl⟩ st).vibe_history =
      st.vibe_history ++ [⟨ts, tl, notifyOf result⟩]) ∧
    ((runStep ⟨ts, events, result, tl⟩ st).vibe_history.map VibePoint.notify =
      (runStep ⟨ts, events2, result, tl2⟩ st).vibe_history.map VibePoint.notify) ∧
    (∀ s : String, s ≠ "" → Value.truthy (.str s) = true) ∧
    (∀ d : List (String × Value), dictLookup d "should_notify" = none →
      Value.truthy (dictGetD d "should_notify" (.bool false)) = false) := by
  refine ⟨runStep_vibe_append ts events result tl st h, ?_, ?_, ?_⟩
  · rw [runStep_vibe_append ts events result tl st h,
      runStep_vibe_append ts events2 result tl2 st h]
    simp [mkVibePoint]
  · intro s hs
    simp [Value.truthy, hs]
  · intro d hd
    simp [dictGetD, hd, Value.truthy]

/-- Witness for C10: a truthy non-boolean `should_notify` ("yes") is
recorded as `true`. -/
theorem vibe_notify_from_plan_witness :
    subShapeOk [("intervention_plan", .dict [("should_notify", .str "yes")])]
        "intervention_plan" = true ∧
    notifyOf [("intervention_plan", .dict [("should_notify", .str "yes")])] = true ∧
    (runStep ⟨"T3", [], [("intervention_plan", .dict [("should_notify", .str "yes")])], "low"⟩
        emptySt).vibe_history =
      emptySt.vibe_history ++
        [⟨"T3", "low", notifyOf [("intervention_plan", .dict [("should_notify", .str "yes")])]⟩] :=
  ⟨rfl, rfl, (vibe_notify_from_plan "T3" [] [] [("intervention_plan",
    .dict [("should_notify", .str "yes")])] "low" "low" emptySt rfl).1⟩



/-- Whether an event is the tension-signal discriminator match
`ev.get("type") == "TensionSignalEvent"`. -/
def evIsTension (ev : Value) : Bool :=
  match ev with
  | .dict d => valIsStr (dictGetD d "type" .null) "TensionSignalEvent"
  | _ => false

/-- Whether a signals list contains the rapid-escalation marker. -/
def rapidInList (sigs : List Value) : Bool :=
  sigs.any fun v =>
    match v with
    | .str s => s == "rapid_escalation"
    | _ => false

/-- The scanning loop is determined by the first tension-signal event:
none found gives ("unknown", false); otherwise the returned level is
that event's `level` field verbatim and the hint is the claimed
disjunction. -/
theorem scanEvents_spec (evs : List Value) (hshape : evs.all isDictVal = true) :
    (evs.find? evIsTension = none → scanEvents evs = .ok (.str "unknown", false)) ∧
    (∀ d sigs, evs.find? evIsTension = some (.dict d) →
      dictGetD d "signals" (.list []) = .list sigs →
      scanEvents evs = .ok
        (dictGetD d "level" (.str "unknown"),
         (valIsStr (dictGetD d "level" (.str "unknown")) "rising" ||
          valIsStr (dictGetD d "level" (.str "unknown")) "high" || rapidInList sigs))) := by
  induction evs with
  | nil => exact ⟨fun _ => rfl, fun d sigs h _ => by simp [List.find?] at h⟩
  | cons ev rest ih =>
    simp only [List.all_cons, Bool.and_eq_true] at hshape
    obtain ⟨hev, hrest⟩ := hshape
    obtain ⟨ih1, ih2⟩ := ih hrest
    rcases ev with _ | _ | _ | _ | _ | d0 <;> simp [isDictVal] at hev
    by_cases ht : evIsTension (.dict d0) = true
    · constructor
      · intro hnone
        rw [List.find?_cons_of_pos _ ht] at hnone
        exact absurd hnone (by simp)
      · intro d sigs hfind hsig
        rw [List.find?_cons_of_pos _ ht] at hfind
        have hd : d0 = d := by
          have := hfind
          simp at this
          exact this
        subst hd
        simp only [evIsTension] at ht
        by_cases hlv : (valIsStr (dictGetD d0 "level" (.str "unknown")) "rising" ||
            valIsStr (dictGetD d0 "level" (.str "unknown")) "high") = true
        · simp [scanEvents, pyGet, bind, Except.bind, ht, hintOf, hlv]
        · simp only [Bool.or_eq_true, not_or, Bool.not_eq_true] at hlv
          simp [scanEvents, pyGet, bind, Except.bind, ht, hintOf, hlv.1, hlv.2, hsig,
            pyInStr, rapidInList]
    · have hf : evIsTension (.dict d0) = false := by simpa using ht
      constructor
      · intro hnone
        rw [List.find?_cons_of_neg _ (by simp [hf])] at hnone
        have := ih1 hnone
        simp only [evIsTension] at hf
        simpa [scanEvents, pyGet, bind, Except.bind, hf] using this
      · intro d sigs hfind hsig
        rw [List.find?_cons_of_neg _ (by simp [hf])] at hfind
        have := ih2 d sigs hfind hsig
        simp only [evIsTension] at hf
        simpa [scanEvents, pyGet, bind, Except.bind, hf] using this



/-- C4 (amended): on an events collection whose event records are
dict-shaped, `extract_tension_level` returns ("unknown", false) when no
event has type TensionSignalEvent; otherwise it reads only the first
such event and returns its `level` field verbatim (defaulting to
"unknown" only when the field is absent), with the notify hint true iff
the level string is rising or high or the event's signals list contains
the "rapid_escalation" marker. -/
theorem extract_tension_spec (events_dict : List (String × Value)) (evs : List Value)
    (hevs : dictGetD events_dict "events" (.list []) = .list evs)
    (hshape : evs.all isDictVal = true) :
    (evs.find? evIsTension = none →
      extract_tension_level events_dict = .ok (.str "unknown", false)) ∧
    (∀ d sigs, evs.find? evIsTension = some (.dict d) →
      dictGetD d "signals" (.list []) = .list sigs →
      extract_tension_level events_dict = .ok
        (dictGetD d "level" (.str "unknown"),
         (valIsStr (dictGetD d "level" (.str "unknown")) "rising" ||
          valIsStr (dictGetD d "level" (.str "unknown")) "high" || rapidInList sigs))) := by
  obtain ⟨h1, h2⟩ := scanEvents_spec evs hshape
  constructor
  · intro hnone
    simpa [extract_tension_level, hevs, pyToList, bind, Except.bind] using h1 hnone
  · intro d sigs hfind hsig
    simpa [extract_tension_level, hevs, pyToList, bind, Except.bind] using h2 d sigs hfind hsig

/-- Counterexample to C4 as stated: a present level "weird" is returned
verbatim, not defaulted to "unknown"; and a non-dict event makes the
scan raise rather than degrade. -/
theorem extract_tension_level_cex :
    extract_tension_level
        [("events", .list [.dict [("type", .str "TensionSignalEvent"),
          ("level", .str "weird")]])] = .ok (.str "weird", false) ∧
    ("weird" : String) ≠ "unknown" ∧
    extract_tension_level [("events", .list [.int 42])] = .error () :=
  ⟨rfl, by decide, rfl⟩

/-- Witness for C4 on a concrete rising-level tension event. -/
theorem extract_tension_spec_witness :
    dictGetD [("events", .list [.dict [("type", .str "TensionSignalEvent"),
        ("level", .str "rising"), ("signals", .list [])]])] "events" (.list []) =
      .list [.dict [("type", .str "TensionSignalEvent"), ("level", .str "rising"),
        ("signals", .list [])]] ∧
    ([.dict [("type", .str "TensionSignalEvent"), ("level", .str "rising"),
        ("signals", .list [])]] : List Value).all isDictVal = true ∧
    extract_tension_level [("events", .list [.dict [("type", .str "TensionSignalEvent"),
        ("level", .str "rising"), ("signals", .list [])]])] = .ok (.str "rising", true) :=
  ⟨rfl, rfl,
    (extract_tension_spec
      [("events", .list [.dict [("type", .str "TensionSignalEvent"),
        ("level", .str "rising"), ("signals", .list [])]])]
      [.dict [("type", .str "TensionSignalEvent"), ("level", .str "rising"),
        ("signals", .list [])]] rfl rfl).2
      [("type", .str "TensionSignalEvent"), ("level", .str "rising"), ("signals", .list [])]
      [] rfl rfl⟩

/-- C9: the export document is exactly the full ledger, tension
history, tier-2 and tier-3 collections (entry counts preserved) plus
the fixed privacy statement; its keys are exactly those five, tier-1
appears nowhere, and the document cannot depend on the tier-1
collection (it is not even an input — so no raw events payload, hence
no conversation text stored only in tier-1, can reach it); the
embedding is a pure read returning a value, mutating nothing. -/
theorem export_payload_spec (st : MemSt) (t1 t1' : List Tier1Record)
    (l : List LedgerEntry) (v : List VibePoint) (t2 : List Tier2Summary)
    (t3 : List Tier3Embedding) :
    (export_of_state { st with tier1_events_48h := t1 } =
      export_of_state { st with tier1_events_48h := t1' }) ∧
    (∃ entries, export_payload l v t2 t3 = .dict entries ∧
      entries.map Prod.fst =
        ["ledger_48h", "vibe_history_30d", "tier2_summaries_30d", "tier3_embeddings",
         "privacy_statement"] ∧
      dictLookup entries "ledger_48h" = some (.list (l.map ledgerAsdict)) ∧
      dictLookup entries "vibe_history_30d" = some (.list (v.map vibeAsdict)) ∧
      dictLookup entries "tier2_summaries_30d" = some (.list (t2.map tier2Asdict)) ∧
      dictLookup entries "tier3_embeddings" = some (.list (t3.map tier3Asdict)) ∧
      dictLookup entries "privacy_statement" = some (.str privacyStatement) ∧
      (l.map ledgerAsdict).length = l.length ∧ (v.map vibeAsdict).length = v.length ∧
      (t2.map tier2Asdict).length = t2.length ∧ (t3.map tier3Asdict).length = t3.length ∧
      "tier1_events_48h" ∉ entries.map Prod.fst) := by
  refine ⟨rfl, ⟨_, rfl, rfl, rfl, rfl, rfl, rfl, rfl, ?_, ?_, ?_, ?_, ?_⟩⟩
  · simp
  · simp
  · simp
  · simp
  · simp



/-- All eight working registers fit in 32 bits. -/
def regsBounded (r : Regs) : Prop :=
  r.a < 4294967296 ∧ r.b < 4294967296 ∧ r.c < 4294967296 ∧ r.d < 4294967296 ∧
  r.e < 4294967296 ∧ r.f < 4294967296 ∧ r.g < 4294967296 ∧ r.h < 4294967296

/-- Word truncation lands below `2 ^ 32`. -/
theorem w32_lt (n : Nat) : w32 n < 4294967296 := Nat.mod_lt _ (by norm_num)

/-- The compression function always outputs 32-bit registers. -/
theorem compressBlock_bounded (r0 : Regs) (b : List Nat) : regsBounded (compressBlock r0 b) :=
  ⟨w32_lt _, w32_lt _, w32_lt _, w32_lt _, w32_lt _, w32_lt _, w32_lt _, w32_lt _⟩

/-- Folding compression over any block list keeps registers bounded. -/
theorem foldl_compress_bounded (bs : List (List Nat)) (r : Regs) (hr : regsBounded r) :
    regsBounded (bs.foldl compressBlock r) := by
  induction bs generalizing r with
  | nil => exact hr
  | cons b rest ih => exact ih _ (compressBlock_bounded r b)

/-- One step of packing words into the digest preserves the bound. -/
theorem packStep {a x m : Nat} (ha : a < m) (hx : x < 4294967296) :
    a * 4294967296 + x < m * 4294967296 := by
  calc a * 4294967296 + x < a * 4294967296 + 4294967296 := by omega
  _ = (a + 1) * 4294967296 := by ring
  _ ≤ m * 4294967296 := Nat.mul_le_mul_right _ ha

/-- The packed SHA-256 digest is below `2 ^ 256`. -/
theorem sha256Nat_lt (msg : List Nat) : sha256Nat msg < 2 ^ 256 := by
  have hb : regsBounded ((toBlocks (shaPad msg)).foldl compressBlock shaH0) :=
    foldl_compress_bounded _ _ (by constructor <;> norm_num [shaH0])
  obtain ⟨h1, h2, h3, h4, h5, h6, h7, h8⟩ := hb
  show ((((((_ * 4294967296 + _) * 4294967296 + _) * 4294967296 + _) * 4294967296 + _) *
      4294967296 + _) * 4294967296 + _) * 4294967296 + _ < 2 ^ 256
  have s1 := packStep h1 h2
  have s2 := packStep s1 h3
  have s3 := packStep s2 h4
  have s4 := packStep s3 h5
  have s5 := packStep s4 h6
  have s6 := packStep s5 h7
  have s7 := packStep s6 h8
  calc _ < 4294967296 * 4294967296 * 4294967296 * 4294967296 * 4294967296 * 4294967296 *
      4294967296 * 4294967296 := s7
  _ = 2 ^ 256 := by norm_num



/-- Lowercase hexadecimal alphabet membership. -/
def isHexLower (c : Char) : Bool := ('0' ≤ c && c ≤ '9') || ('a' ≤ c && c ≤ 'f')

/-- Hex digits of values below 16 are lowercase hex characters. -/
theorem hexChar_hex : ∀ m : Nat, m < 16 → isHexLower (hexChar m) = true := by decide

/-- The derived identifier always has exactly 12 characters. -/
theorem length_make_fake_embedding_id (s : String) : (make_fake_embedding_id s).length = 12 := by
  show (((List.range 64).map fun i =>
    hexChar (sha256Nat (utf8Encode s) / 16 ^ (64 - 1 - i) % 16)).take 12).length = 12
  simp

/-- The 12-character prefix of the hexdigest prints the top 48 bits of
the digest. -/
theorem make_id_eq_top (s : String) :
    make_fake_embedding_id s = hexStrPad 12 (sha256Nat (utf8Encode s) / 2 ^ 208) := by
  simp only [make_fake_embedding_id, hexdigest, strSlice12, hexStrPad]
  congr 1
  rw [← List.map_take, List.take_range, show (12 : Nat) ⊓ 64 = 12 from rfl]
  refine List.map_inj_left.mpr ?_
  intro i hi
  simp only [List.mem_range] at hi
  rw [Nat.div_div_eq_div_mul]
  have h1 : (2:Nat) ^ 208 * 16 ^ (12 - 1 - i) = 16 ^ (64 - 1 - i) := by
    have h52 : (2:Nat) ^ 208 = 16 ^ 52 := by norm_num
    rw [h52, ← pow_add]
    congr 1
    omega
  rw [h1]

/-- C7 (amended): the identity deriver is a pure deterministic function
of the payload string — equal content gives equal ids — returning the
12-character lowercase-hexadecimal prefix of the SHA-256 hexdigest of
the UTF-8 serialized content; distinct summary texts are NOT guaranteed
distinct ids (see the collision counterexample). -/
theorem embedding_id_props (s t : String) :
    (make_fake_embedding_id s).length = 12 ∧
    (∀ c ∈ (make_fake_embedding_id s).data, isHexLower c = true) ∧
    (s = t → make_fake_embedding_id s = make_fake_embedding_id t) ∧
    make_fake_embedding_id s = strSlice12 (hexdigest (utf8Encode s)) := by
  refine ⟨length_make_fake_embedding_id s, ?_, fun h => by rw [h], rfl⟩
  intro c hc
  have hc2 : c ∈ (List.range 64).map fun i =>
      hexChar (sha256Nat (utf8Encode s) / 16 ^ (64 - 1 - i) % 16) :=
    List.mem_of_mem_take hc
  simp only [List.mem_map] at hc2
  obtain ⟨i, _, rfl⟩ := hc2
  exact hexChar_hex _ (Nat.mod_lt _ (by norm_num))

/-- Witness for C7 determinism at a concrete payload. -/
theorem embedding_id_props_witness :
    ("abc" : String) = "abc" ∧
    make_fake_embedding_id "abc" = make_fake_embedding_id "abc" :=
  ⟨rfl, (embedding_id_props "abc" "abc").2.2.1 rfl⟩

/-- Counterexample to C7 as stated: two Tier2Summary records with
different summary texts whose serialized payloads share one 48-bit
truncated digest exist by pigeonhole (the id space is finite, summary
texts are not), so "differing summary text yields differing ids" is
false as a universal statement. -/
theorem embedding_id_collision_cex :
    ∃ x y : Tier2Summary, x.summary ≠ y.summary ∧
      make_fake_embedding_id (jsonDumps (tier2Asdict x)) =
        make_fake_embedding_id (jsonDumps (tier2Asdict y)) := by
  have hbound : ∀ n : Nat,
      sha256Nat (utf8Encode (jsonDumps (tier2Asdict
        ⟨"", String.mk (List.replicate n 'a'), .str ""⟩))) / 2 ^ 208 < 2 ^ 48 := by
    intro n
    refine (Nat.div_lt_iff_lt_mul (by positivity)).mpr ?_
    calc sha256Nat (utf8Encode (jsonDumps (tier2Asdict
        ⟨"", String.mk (List.replicate n 'a'), .str ""⟩))) < 2 ^ 256 := sha256Nat_lt _
    _ = 2 ^ 48 * 2 ^ 208 := by norm_num
  obtain ⟨m, n, hmn, heq⟩ := Finite.exists_ne_map_eq_of_infinite
    (fun k : Nat => (⟨sha256Nat (utf8Encode (jsonDumps (tier2Asdict
      ⟨"", String.mk (List.replicate k 'a'), .str ""⟩))) / 2 ^ 208,
      hbound k⟩ : Fin (2 ^ 48)))
  refine ⟨⟨"", String.mk (List.replicate m 'a'), .str ""⟩,
    ⟨"", String.mk (List.replicate n 'a'), .str ""⟩, ?_, ?_⟩
  · intro hcon
    apply hmn
    have h2 := congrArg (fun s : String => s.data.length) hcon
    simpa using h2
  · have hv := congrArg Fin.val heq
    simp only [] at hv
    rw [make_id_eq_top, make_id_eq_top]
    rw [hv]

end RelateAI
